import Mathlib

/-!
Shallow embedding of the ATMA frontend wizard session controller and its
HTTP client wrappers (src/pages/Index.tsx, src/components/StepProgress.tsx,
src/lib/api.ts, src/lib/auth.ts, src/lib/imageApi.ts).

The page file src/pages/Index.tsx contains two revisions of the controller,
separated in the repository dump; we embed both: the `V1` definitions follow
the first revision (lines 1-247) and the `V2` definitions follow the second
revision (lines 248-583).  Awaited network calls are modelled by passing the
settled outcome of the call as an explicit `Except` argument; the synchronous
prefix of a handler that runs before its first `await` is modelled as a
separate `...Start` function so that the intermediate state at the suspension
point is expressible.
-/

namespace Atma

/-- JS `Array.prototype.indexOf` / `findIndex`: -1 when absent. -/
def jsIndexOf {α : Type} [DecidableEq α] : List α → α → Int
  | [], _ => -1
  | x :: xs, a =>
      if x = a then 0
      else
        let r := jsIndexOf xs a
        if r = -1 then -1 else r + 1

/-- The `Step` union type of Index.tsx (wizard steps plus side stations). -/
inductive Step where
  | welcome | upload | story | script | theme | audio | preview | final | library
deriving DecidableEq, Fintype, Repr

/-- The `CreationStep` union type of Index.tsx (the seven wizard steps). -/
inductive CreationStep where
  | upload | story | script | theme | audio | preview | final
deriving DecidableEq, Fintype, Repr

/-- Injection of creation steps into the full step type. -/
def CreationStep.toStep : CreationStep → Step
  | .upload => .upload
  | .story => .story
  | .script => .script
  | .theme => .theme
  | .audio => .audio
  | .preview => .preview
  | .final => .final

/-- The cast `currentStep as CreationStep` used when rendering StepProgress
(it is only rendered when the current step is one of the seven). -/
def Step.toCreation? : Step → Option CreationStep
  | .welcome => none
  | .upload => some .upload
  | .story => some .story
  | .script => some .script
  | .theme => some .theme
  | .audio => some .audio
  | .preview => some .preview
  | .final => some .final
  | .library => none

/-- `stepFlow` list used by `handleBack` in Index.tsx. -/
def stepFlow : List Step :=
  [.welcome, .upload, .story, .script, .theme, .audio, .preview, .final]

/-- The keys of `stepConfig` in StepProgress.tsx; also the `stepOrder` /
`creationSteps` lists of Index.tsx. -/
def stepConfigKeys : List CreationStep :=
  [.upload, .story, .script, .theme, .audio, .preview, .final]

/-- `processing_status` union in imageApi.ts. -/
inductive ProcessingStatus where
  | pending | processing | completed | failed
deriving DecidableEq, Repr

/-- `ImageMetadata.camera` in imageApi.ts. -/
structure CameraMeta where
  make : Option String
  model : Option String
  lens : Option String
deriving DecidableEq, Repr

/-- `ImageMetadata.settings` in imageApi.ts. -/
structure SettingsMeta where
  iso : Option Nat
  aperture : Option String
  shutter_speed : Option String
  focal_length : Option String
  flash : Option String
deriving DecidableEq, Repr

/-- `ImageMetadata.location` in imageApi.ts. -/
structure LocationMeta where
  latitude : Option Rat
  longitude : Option Rat
  altitude : Option Rat
  location_name : Option String
deriving DecidableEq, Repr

/-- `ImageMetadata.datetime` in imageApi.ts. -/
structure DatetimeMeta where
  taken : Option String
  modified : Option String
  timezone : Option String
deriving DecidableEq, Repr

/-- `ImageMetadata.technical.resolution` in imageApi.ts. -/
structure ResolutionMeta where
  x : Option Rat
  y : Option Rat
  unit : Option String
deriving DecidableEq, Repr

/-- `ImageMetadata.technical` in imageApi.ts. -/
structure TechnicalMeta where
  color_space : Option String
  orientation : Option Nat
  resolution : Option ResolutionMeta
deriving DecidableEq, Repr

/-- `ImageMetadata` in imageApi.ts. -/
structure ImageMetadata where
  camera : Option CameraMeta
  settings : Option SettingsMeta
  location : Option LocationMeta
  datetime : Option DatetimeMeta
  technical : Option TechnicalMeta
deriving DecidableEq, Repr

/-- `ImageUploadResponse` in imageApi.ts. -/
structure ImageUploadResponse where
  id : String
  filename : String
  original_filename : String
  file_size : Nat
  mime_type : String
  width : Option Nat
  height : Option Nat
  processing_status : ProcessingStatus
  metadata : Option ImageMetadata
  upload_url : String
deriving DecidableEq, Repr

/-- `Chapter` in api.ts. -/
structure Chapter where
  title : String
  script : String
deriving DecidableEq, Repr

/-- `ScriptParseResponse` in api.ts. -/
structure ScriptParseResponse where
  chapters : List Chapter
deriving DecidableEq, Repr

/-- Bounding box object used by FaceData and ObjectData in imageAnalysisApi.ts. -/
structure BoundingBox where
  x : Rat
  y : Rat
  width : Rat
  height : Rat
deriving DecidableEq, Repr

/-- `FaceData.demographics` in imageAnalysisApi.ts. -/
structure FaceDemographics where
  age : Rat
  gender : List (String × Rat)
  race : List (String × Rat)
deriving DecidableEq, Repr

/-- `FaceData.emotion` in imageAnalysisApi.ts. -/
structure FaceEmotion where
  dominant : String
  confidence : Rat
  all_emotions : List (String × Rat)
deriving DecidableEq, Repr

/-- `FaceData` in imageAnalysisApi.ts. -/
structure FaceData where
  face_id : Nat
  bounding_box : BoundingBox
  face_area : Rat
  demographics : FaceDemographics
  emotion : FaceEmotion
  is_primary : Bool
deriving DecidableEq, Repr

/-- `ObjectData` in imageAnalysisApi.ts. -/
structure ObjectData where
  object_class : String
  confidence : Rat
  bounding_box : BoundingBox
deriving DecidableEq, Repr

/-- `ImageAnalysisResult.face_analysis` in imageAnalysisApi.ts. -/
structure FaceAnalysis where
  faces_detected : Nat
  faces_data : List FaceData
  primary_person : Option FaceData
deriving DecidableEq, Repr

/-- `ImageAnalysisResult.object_analysis` in imageAnalysisApi.ts. -/
structure ObjectAnalysis where
  objects_detected : List ObjectData
  scene_type : String
  object_count : Nat
  confidence_threshold : Rat
deriving DecidableEq, Repr

/-- `summary.demographics_summary.age_stats` in imageAnalysisApi.ts. -/
structure AgeStats where
  average_age : Rat
  age_range : List Rat
deriving DecidableEq, Repr

/-- `summary.demographics_summary` in imageAnalysisApi.ts. -/
structure DemographicsSummary where
  gender_distribution : List (String × Rat)
  age_stats : AgeStats
deriving DecidableEq, Repr

/-- `summary.emotion_summary` in imageAnalysisApi.ts. -/
structure EmotionSummary where
  dominant_emotions : List (String × Rat)
  overall_mood : String
deriving DecidableEq, Repr

/-- `ImageAnalysisResult.summary` in imageAnalysisApi.ts. -/
structure AnalysisSummary where
  total_faces : Nat
  has_primary_person : Bool
  objects_detected : Nat
  scene_type : String
  demographics_summary : DemographicsSummary
  emotion_summary : EmotionSummary
deriving DecidableEq, Repr

/-- `ImageAnalysisResult` in imageAnalysisApi.ts. -/
structure ImageAnalysisResult where
  image_id : String
  success : Bool
  error_message : Option String
  processing_time_ms : Rat
  analysis_timestamp : String
  face_analysis : FaceAnalysis
  object_analysis : ObjectAnalysis
  summary : AnalysisSummary
deriving DecidableEq, Repr

/-- `ImageAnalysisResponse` in imageAnalysisApi.ts. -/
structure ImageAnalysisResponse where
  batch_id : String
  total_images : Nat
  successful_analyses : Nat
  failed_analyses : Nat
  total_processing_time_ms : Rat
  analysis_timestamp : String
  results : List ImageAnalysisResult
deriving DecidableEq, Repr

/-- `Voice` in the audio API service. -/
structure Voice where
  name : String
  display_name : String
  locale : String
  gender : String
  suggested_codec : String
  friendly_name : String
deriving DecidableEq, Repr

/-- A toast notification as published through `useToast` (title, description,
and whether it was raised with the destructive variant). -/
structure Toast where
  title : String
  description : String
  destructive : Bool
deriving DecidableEq, Repr

/-- Revision 1 `VideoData.audio` field (voice is a plain string). -/
structure AudioConfigV1 where
  music : String
  voice : String
  subtitles : Bool
deriving DecidableEq, Repr

/-- Revision 2 `VideoData.audio` field (voice is `Voice | null`). -/
structure AudioConfigV2 where
  music : String
  voice : Option Voice
  subtitles : Bool
deriving DecidableEq, Repr

/-- Revision 1 `VideoData` of Index.tsx. -/
structure VideoDataV1 where
  uploadedImages : List ImageUploadResponse
  imageAnalysis : Option ImageAnalysisResponse
  story : String
  script : String
  chapters : List Chapter
  theme : String
  audio : AudioConfigV1
deriving DecidableEq, Repr

/-- Revision 2 `VideoData` of Index.tsx. -/
structure VideoDataV2 where
  uploadedImages : List ImageUploadResponse
  imageAnalysis : Option ImageAnalysisResponse
  story : String
  script : String
  chapters : List Chapter
  theme : String
  audio : AudioConfigV2
deriving DecidableEq, Repr

/-- The initial `useState` value for `videoData` in revision 1; also the
value installed by revision 1 `handleStartOver`. -/
def initialVideoDataV1 : VideoDataV1 :=
  { uploadedImages := []
    imageAnalysis := none
    story := ""
    script := ""
    chapters := []
    theme := ""
    audio := { music := "", voice := "", subtitles := true } }

/-- The initial `useState` value for `videoData` in revision 2; also the
value installed by revision 2 `handleStartOver` and `handleCreateNew`. -/
def initialVideoDataV2 : VideoDataV2 :=
  { uploadedImages := []
    imageAnalysis := none
    story := ""
    script := ""
    chapters := []
    theme := ""
    audio := { music := "", voice := none, subtitles := true } }

/-- Controller state of revision 1 of Index.tsx: the `useState` cells, plus
the list of toasts raised so far. -/
structure StateV1 where
  currentStep : Step
  completedSteps : Finset CreationStep
  isProcessingStory : Bool
  isProcessingImageAnalysis : Bool
  videoData : VideoDataV1
  toasts : List Toast
deriving DecidableEq

/-- Controller state of revision 2 of Index.tsx. -/
structure StateV2 where
  currentStep : Step
  completedSteps : Finset CreationStep
  isProcessingStory : Bool
  isProcessingImageAnalysis : Bool
  videoData : VideoDataV2
  toasts : List Toast
deriving DecidableEq

/-- The initial controller state of revision 1. -/
def initialStateV1 : StateV1 :=
  { currentStep := .welcome
    completedSteps := ∅
    isProcessingStory := false
    isProcessingImageAnalysis := false
    videoData := initialVideoDataV1
    toasts := [] }

/-- The initial controller state of revision 2. -/
def initialStateV2 : StateV2 :=
  { currentStep := .welcome
    completedSteps := ∅
    isProcessingStory := false
    isProcessingImageAnalysis := false
    videoData := initialVideoDataV2
    toasts := [] }

/-- Revision 1 `handleCreateNew`: only moves the step pointer to `upload`. -/
def handleCreateNewV1 (st : StateV1) : StateV1 :=
  { st with currentStep := .upload }

/-- `handleViewPast` (both revisions). -/
def handleViewPastV1 (st : StateV1) : StateV1 :=
  { st with currentStep := .library }

/-- `handleStepClick` of Index.tsx (both revisions): sets the current step
with no guard of its own. -/
def handleStepClickV1 (st : StateV1) (step : CreationStep) : StateV1 :=
  { st with currentStep := step.toStep }

/-- `markStepCompleted` of Index.tsx (both revisions). -/
def markStepCompletedV1 (st : StateV1) (step : CreationStep) : StateV1 :=
  { st with completedSteps := insert step st.completedSteps }

/-- `handleBack` of Index.tsx (both revisions). -/
def handleBackV1 (st : StateV1) : StateV1 :=
  let currentIndex := jsIndexOf stepFlow st.currentStep
  if 0 < currentIndex then
    { st with currentStep := stepFlow.getD (currentIndex - 1).toNat .welcome }
  else st

/-- `isClickable` computed for each step button in StepProgress.tsx:
completed, current, or strictly before the current step in `stepConfig`. -/
def isClickable (currentStep : CreationStep) (completedSteps : Finset CreationStep)
    (step : CreationStep) : Bool :=
  let isCompleted := decide (step ∈ completedSteps)
  let isCurrent := decide (step = currentStep)
  let currentStepIndex := jsIndexOf stepConfigKeys currentStep
  let stepIndex := jsIndexOf stepConfigKeys step
  isCompleted || isCurrent || decide (stepIndex < currentStepIndex)

/-- A click on a step button in StepProgress.tsx composed with the parent
`handleStepClick`: the button invokes `onStepClick` only when `isClickable`
holds (and is `disabled` otherwise), and StepProgress is only rendered when
the current step is one of the seven creation steps. -/
def stepProgressClick (st : StateV1) (step : CreationStep) : StateV1 :=
  match st.currentStep.toCreation? with
  | none => st
  | some cur =>
      if isClickable cur st.completedSteps step then handleStepClickV1 st step
      else st

/-- Revision 1 `handleUploadNext` up to its `await` of
`imageAnalysisApiService.analyzeBatch`: sets the busy flag and stores the
uploaded images; the step pointer is untouched until the call settles. -/
def handleUploadNextV1Start (st : StateV1) (uploadedImages : List ImageUploadResponse) :
    StateV1 :=
  let st := { st with isProcessingImageAnalysis := true }
  { st with videoData := { st.videoData with uploadedImages := uploadedImages } }

/-- Revision 1 `handleUploadNext` after its `await` settles: on success the
analysis is stored and a success toast raised; on failure a destructive toast
is raised; in both cases `upload` is marked completed, the step moves to
`story`, and the busy flag is cleared in the `finally` block. -/
def handleUploadNextV1Finish (st : StateV1)
    (analysisResult : Except String ImageAnalysisResponse) : StateV1 :=
  match analysisResult with
  | .ok resp =>
      let st := { st with videoData := { st.videoData with imageAnalysis := some resp } }
      let st := { st with toasts := st.toasts ++
        [({ title := "Image analysis completed!"
            description := "Analyzed " ++ toString resp.successful_analyses ++ " of " ++
              toString resp.total_images ++ " images successfully."
            destructive := false } : Toast)] }
      let st := markStepCompletedV1 st .upload
      let st := { st with currentStep := .story }
      { st with isProcessingImageAnalysis := false }
  | .error msg =>
      let st := { st with toasts := st.toasts ++
        [({ title := "Image analysis failed", description := msg,
            destructive := true } : Toast)] }
      let st := markStepCompletedV1 st .upload
      let st := { st with currentStep := .story }
      { st with isProcessingImageAnalysis := false }

/-- Revision 1 `handleUploadNext`, with the settled outcome of the awaited
analysis call passed explicitly. -/
def handleUploadNextV1 (st : StateV1) (uploadedImages : List ImageUploadResponse)
    (analysisResult : Except String ImageAnalysisResponse) : StateV1 :=
  handleUploadNextV1Finish (handleUploadNextV1Start st uploadedImages) analysisResult

/-- `handleStoryNext` of revision 1, with the settled outcome of the awaited
`apiService.parseScript` call passed explicitly.  The raw story is stored
before the call; on success the chapters are stored, the script is derived by
joining the chapter scripts with a space, `story` is marked completed and the
step moves to `script`; on failure only a destructive toast is raised. -/
def handleStoryNextV1 (st : StateV1) (story : String)
    (parseResult : Except String ScriptParseResponse) : StateV1 :=
  let st := { st with isProcessingStory := true }
  let st := { st with videoData := { st.videoData with story := story } }
  match parseResult with
  | .ok response =>
      let st := { st with videoData := { st.videoData with
        chapters := response.chapters
        script := String.intercalate " " (response.chapters.map Chapter.script) } }
      let st := markStepCompletedV1 st .story
      let st := { st with currentStep := .script }
      let st := { st with toasts := st.toasts ++
        [({ title := "Story processed successfully!"
            description := "Generated " ++ toString response.chapters.length ++
              " chapters from your story."
            destructive := false } : Toast)] }
      { st with isProcessingStory := false }
  | .error msg =>
      let st := { st with toasts := st.toasts ++
        [({ title := "Error processing story", description := msg,
            destructive := true } : Toast)] }
      { st with isProcessingStory := false }

/-- `handleScriptNext` of revision 1. -/
def handleScriptNextV1 (st : StateV1) (script : String) : StateV1 :=
  let st := { st with videoData := { st.videoData with script := script } }
  let st := markStepCompletedV1 st .script
  { st with currentStep := .theme }

/-- `handleThemeNext` of revision 1. -/
def handleThemeNextV1 (st : StateV1) (theme : String) : StateV1 :=
  let st := { st with videoData := { st.videoData with theme := theme } }
  let st := markStepCompletedV1 st .theme
  { st with currentStep := .audio }

/-- `handleAudioNext` of revision 1. -/
def handleAudioNextV1 (st : StateV1) (audio : AudioConfigV1) : StateV1 :=
  let st := { st with videoData := { st.videoData with audio := audio } }
  let st := markStepCompletedV1 st .audio
  { st with currentStep := .preview }

/-- `handlePreviewApprove` of revision 1. -/
def handlePreviewApproveV1 (st : StateV1) : StateV1 :=
  let st := markStepCompletedV1 st .preview
  { st with currentStep := .final }

/-- `handleStartOver` of revision 1: step back to `welcome`, completed set
cleared, video data replaced by the initial empty literal. -/
def handleStartOverV1 (st : StateV1) : StateV1 :=
  { st with currentStep := .welcome
            completedSteps := ∅
            videoData := initialVideoDataV1 }

/-- Revision 2 `handleCreateNew`: clears all data for a fresh session and
enters at `upload`. -/
def handleCreateNewV2 (st : StateV2) : StateV2 :=
  { st with currentStep := .upload
            completedSteps := ∅
            videoData := initialVideoDataV2
            isProcessingImageAnalysis := false
            isProcessingStory := false }

/-- `markStepCompleted` of revision 2. -/
def markStepCompletedV2 (st : StateV2) (step : CreationStep) : StateV2 :=
  { st with completedSteps := insert step st.completedSteps }

/-- Revision 2 `handleUploadNext` up to its `await`: the images are stored,
`upload` is marked completed and the step moves to `story` immediately; only
then is the busy flag set and the background analysis call issued. -/
def handleUploadNextV2Start (st : StateV2) (uploadedImages : List ImageUploadResponse) :
    StateV2 :=
  let st := { st with videoData := { st.videoData with uploadedImages := uploadedImages } }
  let st := markStepCompletedV2 st .upload
  let st := { st with currentStep := .story }
  { st with isProcessingImageAnalysis := true }

/-- Revision 2 `handleUploadNext` continuation when the background analysis
call settles; it runs against whatever controller state is current then.  On
success only the `imageAnalysis` field of the video data is written (plus a
toast); on failure only a destructive toast is raised; the busy flag is
cleared in the `finally` block. -/
def handleUploadNextV2Finish (st : StateV2)
    (analysisResult : Except String ImageAnalysisResponse) : StateV2 :=
  match analysisResult with
  | .ok resp =>
      let st := { st with videoData := { st.videoData with imageAnalysis := some resp } }
      let st := { st with toasts := st.toasts ++
        [({ title := "Image analysis completed!"
            description := "Your photos have been analyzed successfully."
            destructive := false } : Toast)] }
      { st with isProcessingImageAnalysis := false }
  | .error msg =>
      let st := { st with toasts := st.toasts ++
        [({ title := "Image analysis failed", description := msg,
            destructive := true } : Toast)] }
      { st with isProcessingImageAnalysis := false }

/-- `handleStartOver` of revision 2. -/
def handleStartOverV2 (st : StateV2) : StateV2 :=
  { st with currentStep := .welcome
            completedSteps := ∅
            videoData := initialVideoDataV2
            isProcessingImageAnalysis := false
            isProcessingStory := false }

/-- `User` in auth.ts. -/
structure User where
  user_id : String
  email : String
  name : String
  picture : String
  is_active : Bool
deriving DecidableEq, Repr

/-- The settled outcome of a `fetch` to a backend endpoint, as observed by the
client handler: a parsed success body, an HTTP error (status, statusText and
the `detail` field of the error body when one parsed), or a network error. -/
inductive HttpOutcome (α : Type) where
  | success (value : α)
  | failure (status : Nat) (statusText : String) (detail : Option String)
  | networkError
deriving DecidableEq

/-- Browser-visible effects of an API handler: the `access_token` entry of
localStorage and the navigation target when a handler redirected. -/
structure BrowserState where
  accessToken : Option String
  redirectedTo : Option String
deriving DecidableEq, Repr

/-- JS `a || b` on the optional `detail` of an error body (an absent or empty
string falls through to the fallback message). -/
def jsOrElse (detail : Option String) (fallback : String) : String :=
  match detail with
  | none => fallback
  | some s => if s = "" then fallback else s

/-- Response handling of `apiService.parseScript` in api.ts: a 401 throws a
fixed message, other HTTP errors throw the error-body detail or an HTTP
status message, a network error throws a fixed message.  Nothing is written
to localStorage and no navigation happens in any branch. -/
def parseScriptHandle (b : BrowserState) (r : HttpOutcome ScriptParseResponse) :
    BrowserState × Except String ScriptParseResponse :=
  match r with
  | .success v => (b, .ok v)
  | .failure status statusText detail =>
      if status = 401 then (b, .error "Authentication required. Please log in.")
      else
        (b, .error (jsOrElse detail
          ("HTTP " ++ toString status ++ ": " ++ statusText)))
  | .networkError => (b, .error "Failed to parse script due to network error")

/-- Response handling of `imageApiService.uploadImage` in imageApi.ts (the
error body falls back to the detail "Upload failed" when it does not parse).
Nothing is written to localStorage and no navigation happens in any branch. -/
def uploadImageHandle (b : BrowserState) (r : HttpOutcome ImageUploadResponse) :
    BrowserState × Except String ImageUploadResponse :=
  match r with
  | .success v => (b, .ok v)
  | .failure status statusText detail =>
      if status = 401 then (b, .error "Authentication required. Please log in.")
      else
        (b, .error (jsOrElse detail
          ("HTTP " ++ toString status ++ ": " ++ statusText)))
  | .networkError => (b, .error "Upload failed")

/-- Response handling of `authService.getCurrentUser` in auth.ts: a 401
removes the stored access token and yields null; other errors throw and are
caught, yielding null; a success body missing `email`, `name` or `user_id`
also yields null. -/
def getCurrentUserHandle (b : BrowserState) (r : HttpOutcome User) :
    BrowserState × Option User :=
  match r with
  | .success u =>
      if u.email = "" ∨ u.name = "" ∨ u.user_id = "" then (b, none) else (b, some u)
  | .failure status _ _ =>
      if status = 401 then ({ b with accessToken := none }, none) else (b, none)
  | .networkError => (b, none)

/-- A file handed to the upload service (`File` in the DOM API). -/
structure UFile where
  name : String
  size : Nat
  type : String
deriving DecidableEq, Repr

/-- `imageApiService.uploadImages` in imageApi.ts: a `for` loop that awaits
`uploadImage` for each file in order, pushing each result; the first failure
rethrows and rejects the whole batch.  The behaviour of each single upload is
the parameter `uploadOne`. -/
def uploadImages (uploadOne : UFile → Except String ImageUploadResponse) :
    List UFile → Except String (List ImageUploadResponse)
  | [] => .ok []
  | f :: fs =>
      match uploadOne f with
      | .error e => .error e
      | .ok r =>
          match uploadImages uploadOne fs with
          | .error e => .error e
          | .ok rs => .ok (r :: rs)

/-- The sequence of `onFileComplete` invocations of `uploadImages`, in the
order they are observed: file index paired with its upload response.  The
loop stops at the first failing upload. -/
def uploadCompletions (uploadOne : UFile → Except String ImageUploadResponse) :
    List UFile → Nat → List (Nat × ImageUploadResponse)
  | [], _ => []
  | f :: fs, i =>
      match uploadOne f with
      | .error _ => []
      | .ok r => (i, r) :: uploadCompletions uploadOne fs (i + 1)

/-- A concrete upload response used as sample data in concrete evaluations. -/
def sampleImage : ImageUploadResponse :=
  { id := "img-1", filename := "f1.jpg", original_filename := "family.jpg"
    file_size := 1024, mime_type := "image/jpeg", width := none, height := none
    processing_status := .completed, metadata := none, upload_url := "/files/img-1" }

/-- A concrete analysis response used as sample data in concrete evaluations. -/
def sampleAnalysis : ImageAnalysisResponse :=
  { batch_id := "batch-1", total_images := 1, successful_analyses := 1
    failed_analyses := 0, total_processing_time_ms := 12
    analysis_timestamp := "2024-01-01T00:00:00Z", results := [] }

/-- A concrete prior state with work done, for exercising session resets. -/
def richPriorStateV1 : StateV1 :=
  { currentStep := .final
    completedSteps := {.upload, .story, .script, .theme, .audio, .preview}
    isProcessingStory := false
    isProcessingImageAnalysis := false
    videoData :=
      { uploadedImages := [sampleImage]
        imageAnalysis := some sampleAnalysis
        story := "once upon a time"
        script := "chapter one text"
        chapters := [{ title := "Chapter 1", script := "chapter one text" }]
        theme := "documentary"
        audio := { music := "cinematic", voice := "en-US-Gal", subtitles := true } }
    toasts := [] }

/-- A concrete revision 2 state with one completed step. -/
def priorStateV2 : StateV2 :=
  { initialStateV2 with
      currentStep := .story
      completedSteps := {.upload}
      videoData := { initialVideoDataV2 with uploadedImages := [sampleImage] } }

/-- A concrete state sitting on the story screen with nothing parsed yet. -/
def storyScreenState : StateV1 :=
  { initialStateV1 with
      currentStep := .story
      completedSteps := {.upload}
      videoData := { initialVideoDataV1 with uploadedImages := [sampleImage] } }

/-- A concrete state sitting on the upload screen. -/
def uploadScreenState : StateV1 :=
  { initialStateV1 with currentStep := .upload }

/-- A concrete browser state holding a stored access token. -/
def tokenBrowserState : BrowserState :=
  { accessToken := some "tok", redirectedTo := none }

/-- A concrete single-upload behaviour where every upload succeeds with a
response derived from the file. -/
def sampleUploadOutcome (f : UFile) : Except String ImageUploadResponse :=
  .ok { id := f.name, filename := f.name, original_filename := f.name
        file_size := f.size, mime_type := f.type, width := none, height := none
        processing_status := .pending, metadata := none
        upload_url := f.name }

/-- Two concrete files submitted as one batch. -/
def fileA : UFile := { name := "a.jpg", size := 10, type := "image/jpeg" }

/-- Second concrete file of the batch. -/
def fileB : UFile := { name := "b.jpg", size := 20, type := "image/jpeg" }

/-- The responses for the concrete batch, in submission order. -/
def sampleBatchResult : List ImageUploadResponse :=
  [{ id := "a.jpg", filename := "a.jpg", original_filename := "a.jpg"
     file_size := 10, mime_type := "image/jpeg", width := none, height := none
     processing_status := .pending, metadata := none, upload_url := "a.jpg" },
   { id := "b.jpg", filename := "b.jpg", original_filename := "b.jpg"
     file_size := 20, mime_type := "image/jpeg", width := none, height := none
     processing_status := .pending, metadata := none, upload_url := "b.jpg" }]

/-- Casting a creation step into the step union and back is the identity. -/
lemma toCreation_toStep (cur : CreationStep) : (cur.toStep).toCreation? = some cur := by
  cases cur <;> rfl

/-- C1: a step click routed through the StepProgress guard is a no-op whenever
the target step is strictly ahead of the current step in the ordering
['upload','story','script','theme','audio','preview','final'] and not in the
completed set; and the guard accepts exactly the steps that are completed,
equal to the current step, or strictly before it in the ordering. -/
theorem jumpTo_guard (st : StateV1) (cur step : CreationStep)
    (hcur : st.currentStep = cur.toStep) :
    (step ∉ st.completedSteps →
      jsIndexOf stepConfigKeys cur < jsIndexOf stepConfigKeys step →
      stepProgressClick st step = st)
  ∧ (isClickable cur st.completedSteps step = true ↔
      (step ∈ st.completedSteps ∨ step = cur ∨
        jsIndexOf stepConfigKeys step < jsIndexOf stepConfigKeys cur)) := by
  have hiff : isClickable cur st.completedSteps step = true ↔
      (step ∈ st.completedSteps ∨ step = cur ∨
        jsIndexOf stepConfigKeys step < jsIndexOf stepConfigKeys cur) := by
    unfold isClickable
    simp [Bool.or_eq_true, decide_eq_true_iff, or_assoc]
  refine ⟨?_, hiff⟩
  intro h1 h2
  have hfalse : isClickable cur st.completedSteps step = false := by
    rw [Bool.eq_false_iff]
    intro htrue
    rcases hiff.mp htrue with hc | hc | hc
    · exact h1 hc
    · subst hc; omega
    · omega
  unfold stepProgressClick
  rw [hcur, toCreation_toStep]
  simp [hfalse]

/-- C1 witness: from current step `story` with nothing completed, a click on
`theme` (strictly ahead, not completed) changes nothing. -/
theorem jumpTo_guard_witness :
    stepProgressClick { initialStateV1 with currentStep := Step.story }
        CreationStep.theme
      = { initialStateV1 with currentStep := Step.story } :=
  (jumpTo_guard { initialStateV1 with currentStep := Step.story }
    CreationStep.story CreationStep.theme rfl).1 (by decide) (by decide)

/-- C2 counterexample: revision 1 `handleCreateNew` (Index.tsx line 50) does
not discard the session: from a state with a non-empty story and a non-empty
completed set it keeps both, so choosing create-new does not replace the
session with an empty instance. -/
theorem createNew_keeps_session_counterexample :
    (handleCreateNewV1 richPriorStateV1).videoData = richPriorStateV1.videoData
  ∧ (handleCreateNewV1 richPriorStateV1).videoData ≠ initialVideoDataV1
  ∧ (handleCreateNewV1 richPriorStateV1).completedSteps ≠ ∅ := by
  refine ⟨rfl, by decide, by decide⟩

/-- C2 amended: after `handleStartOver` (either revision) the session equals
its initial empty value, the completed set is empty and the current step is
`welcome`, regardless of prior state; revision 2 `handleCreateNew` likewise
discards the session (entering at `upload`), but revision 1 `handleCreateNew`
only moves the step pointer to `upload`, keeping the session and the
completed set. -/
theorem startOver_resets (st : StateV1) (st2 : StateV2) :
    ((handleStartOverV1 st).currentStep = Step.welcome
      ∧ (handleStartOverV1 st).completedSteps = ∅
      ∧ (handleStartOverV1 st).videoData = initialVideoDataV1)
  ∧ ((handleStartOverV2 st2).currentStep = Step.welcome
      ∧ (handleStartOverV2 st2).completedSteps = ∅
      ∧ (handleStartOverV2 st2).videoData = initialVideoDataV2)
  ∧ ((handleCreateNewV2 st2).currentStep = Step.upload
      ∧ (handleCreateNewV2 st2).completedSteps = ∅
      ∧ (handleCreateNewV2 st2).videoData = initialVideoDataV2)
  ∧ ((handleCreateNewV1 st).currentStep = Step.upload
      ∧ (handleCreateNewV1 st).videoData = st.videoData
      ∧ (handleCreateNewV1 st).completedSteps = st.completedSteps) :=
  ⟨⟨rfl, rfl, rfl⟩, ⟨rfl, rfl, rfl⟩, ⟨rfl, rfl, rfl⟩, ⟨rfl, rfl, rfl⟩⟩

/-- C3 counterexample: `apiService.parseScript` handles a 401 response by
throwing a fixed error, but the stored access token survives and no redirect
happens, so a 401 does not uniformly invalidate local credentials and
redirect to login. -/
theorem auth401_counterexample :
    (parseScriptHandle tokenBrowserState
        (.failure 401 "Unauthorized" none)).1.accessToken = some "tok"
  ∧ (parseScriptHandle tokenBrowserState
        (.failure 401 "Unauthorized" none)).1.redirectedTo = none := ⟨rfl, rfl⟩

/-- C3 amended: every modelled API call surfaces a 401 uniformly as not
authenticated (the services throw a fixed authentication error and
`getCurrentUser` yields null), but only `authService.getCurrentUser` removes
the stored access token; none of the calls performs a redirect itself. -/
theorem auth401_behavior (b : BrowserState) (statusText : String)
    (detail : Option String) :
    parseScriptHandle b (.failure 401 statusText detail)
      = (b, .error "Authentication required. Please log in.")
  ∧ uploadImageHandle b (.failure 401 statusText detail)
      = (b, .error "Authentication required. Please log in.")
  ∧ getCurrentUserHandle b (.failure 401 statusText detail)
      = ({ b with accessToken := none }, none)
  ∧ (getCurrentUserHandle b (.failure 401 statusText detail)).1.redirectedTo
      = b.redirectedTo :=
  ⟨rfl, rfl, rfl, rfl⟩

/-- C10: on a successful parse the controller stores exactly the returned
chapter list and derives the script by joining the chapter scripts with a
single space; the derived script does not depend on the raw story text. -/
theorem script_derived_from_chapters (st : StateV1) (story story2 : String)
    (resp : ScriptParseResponse) :
    (handleStoryNextV1 st story (.ok resp)).videoData.chapters = resp.chapters
  ∧ (handleStoryNextV1 st story (.ok resp)).videoData.script
      = String.intercalate " " (resp.chapters.map Chapter.script)
  ∧ (handleStoryNextV1 st story2 (.ok resp)).videoData.script
      = (handleStoryNextV1 st story (.ok resp)).videoData.script :=
  ⟨rfl, rfl, rfl⟩

/-- C4: a failed parse call leaves the current step where it was (still
`story`), does not add `story` to the completed set, retains the submitted
raw text in the story field for retry, and leaves the chapters field empty. -/
theorem storyParseFailure_retains (st : StateV1) (story msg : String)
    (hstep : st.currentStep = Step.story)
    (hnc : CreationStep.story ∉ st.completedSteps)
    (hch : st.videoData.chapters = []) :
    (handleStoryNextV1 st story (.error msg)).currentStep = Step.story
  ∧ CreationStep.story ∉ (handleStoryNextV1 st story (.error msg)).completedSteps
  ∧ (handleStoryNextV1 st story (.error msg)).videoData.story = story
  ∧ (handleStoryNextV1 st story (.error msg)).videoData.chapters = []
  ∧ (handleStoryNextV1 st story (.error msg)).completedSteps = st.completedSteps :=
  ⟨hstep, hnc, rfl, hch, rfl⟩

/-- C4 witness: the failed parse evaluated on a concrete story-screen state. -/
theorem storyParseFailure_retains_witness :
    (handleStoryNextV1 storyScreenState "my story" (.error "boom")).currentStep
        = Step.story
  ∧ CreationStep.story ∉
      (handleStoryNextV1 storyScreenState "my story" (.error "boom")).completedSteps
  ∧ (handleStoryNextV1 storyScreenState "my story" (.error "boom")).videoData.story
        = "my story"
  ∧ (handleStoryNextV1 storyScreenState "my story" (.error "boom")).videoData.chapters
        = []
  ∧ (handleStoryNextV1 storyScreenState "my story" (.error "boom")).completedSteps
        = storyScreenState.completedSteps :=
  storyParseFailure_retains storyScreenState "my story" "boom" rfl (by decide) rfl

/-- C5: in revision 1, a failed analysis call still marks `upload` completed
and moves the step to `story`; the imageAnalysis field keeps its prior value
(unset stays unset) and a destructive toast is recorded. -/
theorem analysisFailure_nonblocking (st : StateV1)
    (imgs : List ImageUploadResponse) (msg : String)
    (hia : st.videoData.imageAnalysis = none) :
    (handleUploadNextV1 st imgs (.error msg)).currentStep = Step.story
  ∧ CreationStep.upload ∈ (handleUploadNextV1 st imgs (.error msg)).completedSteps
  ∧ (handleUploadNextV1 st imgs (.error msg)).videoData.imageAnalysis = none
  ∧ (handleUploadNextV1 st imgs (.error msg)).toasts
      = st.toasts ++ [(⟨"Image analysis failed", msg, true⟩ : Toast)] := by
  refine ⟨rfl, ?_, hia, rfl⟩
  simp [handleUploadNextV1, handleUploadNextV1Start, handleUploadNextV1Finish,
    markStepCompletedV1]

/-- C5 witness: the failed analysis evaluated on a concrete upload-screen
state. -/
theorem analysisFailure_nonblocking_witness :
    (handleUploadNextV1 uploadScreenState [sampleImage] (.error "nope")).currentStep
        = Step.story
  ∧ CreationStep.upload ∈
      (handleUploadNextV1 uploadScreenState [sampleImage] (.error "nope")).completedSteps
  ∧ (handleUploadNextV1 uploadScreenState [sampleImage]
        (.error "nope")).videoData.imageAnalysis = none
  ∧ (handleUploadNextV1 uploadScreenState [sampleImage] (.error "nope")).toasts
      = uploadScreenState.toasts ++ [(⟨"Image analysis failed", "nope", true⟩ : Toast)] :=
  analysisFailure_nonblocking uploadScreenState [sampleImage] "nope" rfl

/-- C6 counterexample: in revision 1 the upload-to-story transition is gated
on the analysis task: after the synchronous prefix of `handleUploadNext`
(before the awaited analysis call settles) the current step is still
`upload` and `upload` is not completed, so the user cannot advance past
`upload` before analysis finishes. -/
theorem uploadGatedV1_counterexample :
    (handleUploadNextV1Start uploadScreenState [sampleImage]).currentStep
        = Step.upload
  ∧ CreationStep.upload ∉
      (handleUploadNextV1Start uploadScreenState [sampleImage]).completedSteps :=
  ⟨rfl, by decide⟩

/-- C6 amended: in revision 2 the analysis is fire-and-forget: the
synchronous prefix of `handleUploadNext` already marks `upload` completed and
moves to `story` before the analysis settles, and the completion continuation
run on any later state (for example after the user advanced to `theme`)
attaches the result to `imageAnalysis` while leaving the current step, every
other video-data field and the completed set unchanged. -/
theorem analysis_fire_and_forget_v2 (st st' : StateV2)
    (imgs : List ImageUploadResponse) (resp : ImageAnalysisResponse) :
    ((handleUploadNextV2Start st imgs).currentStep = Step.story
      ∧ CreationStep.upload ∈ (handleUploadNextV2Start st imgs).completedSteps)
  ∧ ((handleUploadNextV2Finish st' (.ok resp)).currentStep = st'.currentStep
      ∧ (handleUploadNextV2Finish st' (.ok resp)).videoData.imageAnalysis = some resp
      ∧ (handleUploadNextV2Finish st' (.ok resp)).videoData.uploadedImages
          = st'.videoData.uploadedImages
      ∧ (handleUploadNextV2Finish st' (.ok resp)).videoData.story
          = st'.videoData.story
      ∧ (handleUploadNextV2Finish st' (.ok resp)).videoData.script
          = st'.videoData.script
      ∧ (handleUploadNextV2Finish st' (.ok resp)).videoData.chapters
          = st'.videoData.chapters
      ∧ (handleUploadNextV2Finish st' (.ok resp)).videoData.theme
          = st'.videoData.theme
      ∧ (handleUploadNextV2Finish st' (.ok resp)).videoData.audio
          = st'.videoData.audio
      ∧ (handleUploadNextV2Finish st' (.ok resp)).completedSteps
          = st'.completedSteps) := by
  refine ⟨⟨rfl, ?_⟩, rfl, rfl, rfl, rfl, rfl, rfl, rfl, rfl, rfl⟩
  simp [handleUploadNextV2Start, markStepCompletedV2]

/-- C7: six successful advances in the fixed order, starting from the upload
screen, visit exactly the successive elements of the ordering
['upload','story','script','theme','audio','preview','final'], and every
advanced-from step is added to the completed set. -/
theorem advance_chain (st0 : StateV1) (imgs : List ImageUploadResponse)
    (ana : ImageAnalysisResponse) (story : String) (resp : ScriptParseResponse)
    (scr th : String) (au : AudioConfigV1) :
    let s1 := handleUploadNextV1 st0 imgs (.ok ana)
    let s2 := handleStoryNextV1 s1 story (.ok resp)
    let s3 := handleScriptNextV1 s2 scr
    let s4 := handleThemeNextV1 s3 th
    let s5 := handleAudioNextV1 s4 au
    let s6 := handlePreviewApproveV1 s5
    (s1.currentStep = (stepConfigKeys.getD 1 .upload).toStep
       ∧ CreationStep.upload ∈ s1.completedSteps)
  ∧ (s2.currentStep = (stepConfigKeys.getD 2 .upload).toStep
       ∧ CreationStep.upload ∈ s2.completedSteps
       ∧ CreationStep.story ∈ s2.completedSteps)
  ∧ (s3.currentStep = (stepConfigKeys.getD 3 .upload).toStep
       ∧ CreationStep.script ∈ s3.completedSteps)
  ∧ (s4.currentStep = (stepConfigKeys.getD 4 .upload).toStep
       ∧ CreationStep.theme ∈ s4.completedSteps)
  ∧ (s5.currentStep = (stepConfigKeys.getD 5 .upload).toStep
       ∧ CreationStep.audio ∈ s5.completedSteps)
  ∧ (s6.currentStep = (stepConfigKeys.getD 6 .upload).toStep
       ∧ CreationStep.upload ∈ s6.completedSteps
       ∧ CreationStep.story ∈ s6.completedSteps
       ∧ CreationStep.script ∈ s6.completedSteps
       ∧ CreationStep.theme ∈ s6.completedSteps
       ∧ CreationStep.audio ∈ s6.completedSteps
       ∧ CreationStep.preview ∈ s6.completedSteps) := by
  refine ⟨⟨rfl, ?_⟩, ⟨rfl, ?_, ?_⟩, ⟨rfl, ?_⟩, ⟨rfl, ?_⟩, ⟨rfl, ?_⟩,
    ⟨rfl, ?_, ?_, ?_, ?_, ?_, ?_⟩⟩ <;>
  simp [handleUploadNextV1, handleUploadNextV1Start, handleUploadNextV1Finish,
    handleStoryNextV1, handleScriptNextV1, handleThemeNextV1, handleAudioNextV1,
    handlePreviewApproveV1, markStepCompletedV1, Finset.mem_insert]

/-- C8 counterexample: revision 2 `handleCreateNew` resets the completed set
to empty from a state where it is non-empty, so the completed set is not
reset only by an explicit start-over, and not every operation is monotone. -/
theorem completed_reset_by_createNew_counterexample :
    (handleCreateNewV2 priorStateV2).completedSteps = ∅
  ∧ priorStateV2.completedSteps ≠ ∅
  ∧ ¬ priorStateV2.completedSteps ⊆ (handleCreateNewV2 priorStateV2).completedSteps :=
  ⟨rfl, by decide, by decide⟩

/-- C8 amended: every controller operation either leaves the completed set
unchanged or only adds to it (`markStepCompleted` only ever adds), except the
session-resetting operations: `handleStartOver` in both revisions and
revision 2 `handleCreateNew`, which reset it to empty. -/
theorem completed_monotone (st : StateV1) (st2 : StateV2) (step : CreationStep)
    (imgs : List ImageUploadResponse) (r : Except String ImageAnalysisResponse)
    (story : String) (pr : Except String ScriptParseResponse)
    (scr th : String) (au : AudioConfigV1) :
    st.completedSteps ⊆ (markStepCompletedV1 st step).completedSteps
  ∧ st.completedSteps ⊆ (stepProgressClick st step).completedSteps
  ∧ st.completedSteps ⊆ (handleStepClickV1 st step).completedSteps
  ∧ st.completedSteps ⊆ (handleBackV1 st).completedSteps
  ∧ st.completedSteps ⊆ (handleViewPastV1 st).completedSteps
  ∧ st.completedSteps ⊆ (handleCreateNewV1 st).completedSteps
  ∧ st.completedSteps ⊆ (handleUploadNextV1 st imgs r).completedSteps
  ∧ st.completedSteps ⊆ (handleStoryNextV1 st story pr).completedSteps
  ∧ st.completedSteps ⊆ (handleScriptNextV1 st scr).completedSteps
  ∧ st.completedSteps ⊆ (handleThemeNextV1 st th).completedSteps
  ∧ st.completedSteps ⊆ (handleAudioNextV1 st au).completedSteps
  ∧ st.completedSteps ⊆ (handlePreviewApproveV1 st).completedSteps
  ∧ st2.completedSteps ⊆ (handleUploadNextV2Start st2 imgs).completedSteps
  ∧ st2.completedSteps ⊆ (handleUploadNextV2Finish st2 r).completedSteps
  ∧ st2.completedSteps ⊆ (markStepCompletedV2 st2 step).completedSteps
  ∧ (handleStartOverV1 st).completedSteps = ∅
  ∧ (handleStartOverV2 st2).completedSteps = ∅
  ∧ (handleCreateNewV2 st2).completedSteps = ∅ := by
  refine ⟨Finset.subset_insert _ _, ?_, Finset.Subset.refl _, ?_,
    Finset.Subset.refl _, Finset.Subset.refl _, ?_, ?_,
    Finset.subset_insert _ _, Finset.subset_insert _ _, Finset.subset_insert _ _,
    Finset.subset_insert _ _, Finset.subset_insert _ _, ?_,
    Finset.subset_insert _ _, rfl, rfl, rfl⟩
  · unfold stepProgressClick
    cases st.currentStep.toCreation? with
    | none => exact Finset.Subset.refl _
    | some cur =>
        dsimp only
        split
        · exact Finset.Subset.refl _
        · exact Finset.Subset.refl _
  · unfold handleBackV1
    dsimp only
    split
    · exact Finset.Subset.refl _
    · exact Finset.Subset.refl _
  · cases r with
    | ok a => exact Finset.subset_insert _ _
    | error e => exact Finset.subset_insert _ _
  · cases pr with
    | ok a => exact Finset.subset_insert _ _
    | error e => exact Finset.Subset.refl _
  · cases r with
    | ok a => exact Finset.Subset.refl _
    | error e => exact Finset.Subset.refl _

/-- Order preservation of the sequential upload loop: on batch success the
response list is the upload outcome of each input file, in input order. -/
lemma uploadImages_map (uploadOne : UFile → Except String ImageUploadResponse) :
    ∀ (files : List UFile) (rs : List ImageUploadResponse),
      uploadImages uploadOne files = .ok rs →
      files.map uploadOne = rs.map Except.ok := by
  intro files
  induction files with
  | nil =>
      intro rs h
      unfold uploadImages at h
      cases h
      rfl
  | cons f fs ih =>
      intro rs h
      unfold uploadImages at h
      cases hf : uploadOne f with
      | error e => rw [hf] at h; cases h
      | ok r =>
          rw [hf] at h
          cases hrest : uploadImages uploadOne fs with
          | error e => rw [hrest] at h; cases h
          | ok rs' =>
              rw [hrest] at h
              cases h
              simp [List.map, hf, ih rs' hrest]

/-- The `onFileComplete` observations of the sequential upload loop happen at
increasing indices paired with the responses in order. -/
lemma uploadCompletions_eq (uploadOne : UFile → Except String ImageUploadResponse) :
    ∀ (files : List UFile) (rs : List ImageUploadResponse) (i : Nat),
      uploadImages uploadOne files = .ok rs →
      uploadCompletions uploadOne files i = (List.range' i files.length).zip rs := by
  intro files
  induction files with
  | nil =>
      intro rs i h
      unfold uploadImages at h
      cases h
      rfl
  | cons f fs ih =>
      intro rs i h
      unfold uploadImages at h
      cases hf : uploadOne f with
      | error e => rw [hf] at h; cases h
      | ok r =>
          rw [hf] at h
          cases hrest : uploadImages uploadOne fs with
          | error e => rw [hrest] at h; cases h
          | ok rs' =>
              rw [hrest] at h
              cases h
              unfold uploadCompletions
              rw [hf]
              simp [List.range'_succ, ih rs' (i + 1) hrest]

/-- C9: `uploadImages` performs the uploads strictly sequentially; on success
the response list has one response per file, each file's response sits at the
same index as the file, and the completion callbacks are observed exactly at
indices 0, 1, ... in submission order. -/
theorem uploadImages_sequential (uploadOne : UFile → Except String ImageUploadResponse)
    (files : List UFile) (rs : List ImageUploadResponse)
    (h : uploadImages uploadOne files = .ok rs) :
    files.map uploadOne = rs.map Except.ok
  ∧ rs.length = files.length
  ∧ uploadCompletions uploadOne files 0 = (List.range files.length).zip rs := by
  have hm := uploadImages_map uploadOne files rs h
  have hc := uploadCompletions_eq uploadOne files rs 0 h
  refine ⟨hm, ?_, ?_⟩
  · have hl := congrArg List.length hm
    simpa using hl.symm
  · simpa [List.range_eq_range'] using hc

/-- C9 witness: a concrete two-file batch where both uploads succeed. -/
theorem uploadImages_sequential_witness :
    ([fileA, fileB]).map sampleUploadOutcome = sampleBatchResult.map Except.ok
  ∧ sampleBatchResult.length = ([fileA, fileB]).length
  ∧ uploadCompletions sampleUploadOutcome [fileA, fileB] 0
      = (List.range ([fileA, fileB]).length).zip sampleBatchResult :=
  uploadImages_sequential sampleUploadOutcome [fileA, fileB] sampleBatchResult rfl

end Atma
